import Mathlib

/-!
# Shallow embedding of the multi-tenant quiz backend

This file embeds the request handlers of the serverless quiz backend
(`src/lambda/*/handler.py`, `src/lambda/common/tenant_middleware.py`,
`src/lambda_layer/participant_middleware.py`, and the deployed
delete-session asset under `src/cdk/cdk.out/`) and proves properties about
tenant isolation, idempotent join, score accumulation, scoring tiers, the
round cap, cascading deletes and the scoreboard join.

Conventions of the embedding:
* Python dict fields read with `.get(...)` become `Option` fields; defaults
  are applied at the read site exactly where the code applies them.
* Python truthiness of a string (`if not s:`; `None` and `""` are falsy) is
  the `truthy` predicate below.  A missing path parameter and an empty one
  are both falsy in the code, so both are modelled by `""`/`none`.
* `uuid.uuid4()` is modelled by a per-store fresh counter `nextId`
  (uuid4 collisions have probability zero; generated ids are `Nat`s).
* DynamoDB tables are lists of records; `get_item` is `List.find?` on the
  table key, `put_item` is an upsert on the table key, `update_item`
  rewrites the record with the given key, `query` is a filter.
* JWT decoding (`auth.validate_token`) is external library code; the
  handlers are embedded from the point where the decoded payload is in
  hand, taking the payload's `role`/`tenantId`/`sub` claims as arguments.
* The JSON error envelope built by `errors.error_response(status, code,
  message)` is `HandlerResult.failure status code` (message text elided);
  CORS headers are attached uniformly and carry no information.
-/

namespace MusikQuiz

/-- Python truthiness of an optional string: `None` and `""` are falsy. -/
def truthy : Option String → Bool
  | none => false
  | some s => s != ""

/-- A JSON scalar as far as these handlers inspect one: they only ever test
`isinstance(x, int)` and compare/range-check the integer. -/
inductive JsonVal where
  | jint (n : Int) : JsonVal
  | jother : JsonVal
deriving Repr, DecidableEq

/-- A handler response: either a success body with a status code, or the
uniform error envelope `{error: {code, ...}}` with a status code. -/
inductive HandlerResult (α : Type) where
  | success (statusCode : Nat) (body : α)
  | failure (statusCode : Nat) (errorCode : String)
deriving Repr, DecidableEq

def HandlerResult.status {α : Type} : HandlerResult α → Nat
  | .success s _ => s
  | .failure s _ => s

def HandlerResult.errorCode {α : Type} : HandlerResult α → Option String
  | .success _ _ => none
  | .failure _ c => some c

def HandlerResult.body? {α : Type} : HandlerResult α → Option α
  | .success _ b => some b
  | .failure _ _ => none

/-- A request body as a handler sees it: absent (falsy `event["body"]`),
syntactically invalid JSON, or parsed. -/
inductive ReqBody (β : Type) where
  | missing : ReqBody β
  | malformed : ReqBody β
  | parsed (b : β) : ReqBody β
deriving Repr, DecidableEq

/-! ## Data model (fields the embedded handlers read) -/

/-- Row of the `Tenants` table. -/
structure Tenant where
  tenantId : String
  status : Option String
  updatedAt : Option String
deriving Repr, DecidableEq

/-- Row of the `QuizSessions` table. -/
structure Session where
  sessionId : String
  tenantId : Option String
  status : Option String
  mediaType : Option String
  roundCount : Option Nat
  roundStartedAt : Option Int
deriving Repr, DecidableEq

/-- Row of the `QuizRounds` table, keyed by `(sessionId, roundNumber)`. -/
structure Round where
  roundId : Nat
  sessionId : String
  roundNumber : Int
  question : String
  answers : List String
  correctAnswer : Int
  audioKey : Option String
  imageKey : Option String
  createdAt : Int
deriving Repr, DecidableEq

/-- Row of the `GlobalParticipants` table (the legacy `Participants` rows are
read through the same fields). -/
structure GlobalParticipant where
  participantId : String
  tenantId : Option String
  name : Option String
  avatar : Option String
deriving Repr, DecidableEq

/-- Row of the `SessionParticipations` table, keyed by `participationId`. -/
structure Participation where
  participationId : Nat
  participantId : String
  sessionId : String
  tenantId : Option String
  joinedAt : String
  totalPoints : Int
  correctAnswers : Int
deriving Repr, DecidableEq

/-- Row of the `Answers` table, keyed by `answerId`. -/
structure Answer where
  answerId : Nat
  participantId : String
  participationId : Nat
  sessionId : String
  tenantId : Option String
  roundNumber : Int
  answer : Int
  isCorrect : Bool
  points : Int
  submittedAt : Int
deriving Repr, DecidableEq

/-- The whole key-value store, plus the fresh-uuid counter. -/
structure Store where
  tenants : List Tenant
  sessions : List Session
  rounds : List Round
  globalParticipants : List GlobalParticipant
  legacyParticipants : List GlobalParticipant
  participations : List Participation
  answers : List Answer
  nextId : Nat
deriving Repr, DecidableEq

def emptyStore : Store := ⟨[], [], [], [], [], [], [], 0⟩

/-! ## Store primitives (`common/db.py` get/put/query/update/delete) -/

def find_tenant (st : Store) (tid : String) : Option Tenant :=
  st.tenants.find? (fun t => t.tenantId == tid)

def find_session (st : Store) (sid : String) : Option Session :=
  st.sessions.find? (fun s => s.sessionId == sid)

def find_round (st : Store) (sid : String) (rn : Int) : Option Round :=
  st.rounds.find? (fun r => r.sessionId == sid && r.roundNumber == rn)

/-- The `query(..., "participantId = :pid", index_name="ParticipantIndex")`
call followed by the in-handler scan for the first row with this
`sessionId` (both `join_session` and `submit_answer` use this pattern). -/
def find_participation (st : Store) (pid sid : String) : Option Participation :=
  (st.participations.filter (fun p => p.participantId == pid)).find?
    (fun p => p.sessionId == sid)

/-- DynamoDB `put_item` on the `SessionParticipations` table: upsert keyed
by `participationId`. -/
def put_participation (ps : List Participation) (p : Participation) : List Participation :=
  if ps.any (fun q => q.participationId == p.participationId) then
    ps.map (fun q => if q.participationId == p.participationId then p else q)
  else
    ps ++ [p]

/-- DynamoDB `put_item` on the `Answers` table: upsert keyed by `answerId`. -/
def put_answer (as' : List Answer) (a : Answer) : List Answer :=
  if as'.any (fun q => q.answerId == a.answerId) then
    as'.map (fun q => if q.answerId == a.answerId then a else q)
  else
    as' ++ [a]

/-- DynamoDB `put_item` on the `QuizRounds` table: upsert keyed by
`(sessionId, roundNumber)`. -/
def put_round (rs : List Round) (r : Round) : List Round :=
  if rs.any (fun q => q.sessionId == r.sessionId && q.roundNumber == r.roundNumber) then
    rs.map (fun q => if q.sessionId == r.sessionId && q.roundNumber == r.roundNumber then r else q)
  else
    rs ++ [r]

/-- DynamoDB `update_item` on `SessionParticipations`:
`SET totalPoints = :tp, correctAnswers = :ca` keyed by `participationId`. -/
def update_participation_scores (ps : List Participation) (pid : Nat) (tp ca : Int) :
    List Participation :=
  ps.map (fun q =>
    if q.participationId == pid then { q with totalPoints := tp, correctAnswers := ca } else q)

/-! ## Tenant middleware (`common/tenant_middleware.py`) -/

/-- The tenant context assembled from a decoded admin JWT payload:
`{"adminId": payload.get("sub"), "role": payload.get("role"), "tenantId":
payload.get("tenantId")}` (absent claims are `none`). -/
structure TenantContext where
  adminId : Option String
  role : Option String
  tenantId : Option String
deriving Repr, DecidableEq

/-- Embeds `tenant_middleware.validate_tenant_access(tenant_context,
resource_tenant_id)`: `none` means access allowed, `some (status, code)` is
the error envelope returned to the caller. -/
def validate_tenant_access (ctx : TenantContext) (resourceTenantId : Option String) :
    Option (Nat × String) :=
  if ctx.role = some "super_admin" then none
  else if ctx.tenantId ≠ resourceTenantId then some (403, "CROSS_TENANT_ACCESS")
  else none

/-- Embeds `participant_middleware.validate_participant_tenant_access`: the
participant variant has no super-admin bypass. -/
def validate_participant_tenant_access (participantTenantId resourceTenantId : Option String) :
    Option (Nat × String) :=
  if participantTenantId ≠ resourceTenantId then some (403, "CROSS_TENANT_ACCESS")
  else none

/-! ## `join_session/handler.py` -/

/-- Embeds `join_session.lambda_handler`, entered after `require_participant_auth`
succeeded (so `participantId` and `participantTenantId` are the non-empty
strings from the validated participant token).  `sessionId` is the
`sessionId` path parameter (`""` for a missing/falsy one).  Returns the
response together with the post-state of the store.  The handler's
"continue if the existence query fails" path is a store-error path and does
not arise in this sequential, error-free store model. -/
def join_session (st : Store) (participantId participantTenantId sessionId joinedAt : String) :
    HandlerResult Participation × Store :=
  if sessionId == "" then (.failure 400 "MISSING_FIELDS", st)
  else
    match find_session st sessionId with
    | none => (.failure 404 "SESSION_NOT_FOUND", st)
    | some session =>
      match (if truthy session.tenantId then
               validate_participant_tenant_access (some participantTenantId) session.tenantId
             else none) with
      | some e => (.failure e.1 e.2, st)
      | none =>
        match find_participation st participantId sessionId with
        | some p => (.success 200 p, st)
        | none =>
          let pnew : Participation :=
            { participationId := st.nextId
              participantId := participantId
              sessionId := sessionId
              tenantId := if truthy session.tenantId then session.tenantId
                          else some participantTenantId
              joinedAt := joinedAt
              totalPoints := 0
              correctAnswers := 0 }
          (.success 201 pnew,
           { st with participations := put_participation st.participations pnew
                     nextId := st.nextId + 1 })

/-! ## `submit_answer/handler.py` -/

/-- The scoring block of `submit_answer.lambda_handler` (lines 152-176):
points are awarded only on a correct answer, tiered by
`submittedAt - int(session["roundStartedAt"])`.  The code's
`if round_started_at:` is Python truthiness, so an absent value and the
integer `0` both take the default-5 branch; this is `roundStartedAt.getD 0
≠ 0` here. -/
def compute_points (isCorrect : Bool) (roundStartedAt : Option Int) (submittedAt : Int) : Int :=
  if isCorrect then
    if roundStartedAt.getD 0 ≠ 0 then
      let responseTime := submittedAt - roundStartedAt.getD 0
      if responseTime ≤ 2 then 10
      else if responseTime ≤ 5 then 8
      else 5
    else 5
  else 0

/-- Parsed JSON body of a submit-answer request.  `participantId` and
`sessionId` are checked with Python truthiness, `roundNumber` and `answer`
with `is not None`; `answer` is additionally `isinstance(_, int)`-checked. -/
structure SubmitBody where
  participantId : Option String
  sessionId : Option String
  roundNumber : Option Int
  answer : Option JsonVal
deriving Repr, DecidableEq

/-- Success body of a submit-answer response. -/
structure SubmitResult where
  answerId : Nat
  isCorrect : Bool
  points : Int
  submittedAt : Int
deriving Repr, DecidableEq

/-- Embeds `submit_answer.lambda_handler` from the body parse on.  `now` is
`int(datetime.utcnow().timestamp())`.  Participation rows always carry
`totalPoints`/`correctAnswers` (join writes 0), so the code's
`.get("totalPoints", 0)` defaults never fire on rows this model builds. -/
def submit_answer_core (st : Store) (body : ReqBody SubmitBody) (now : Int) :
    HandlerResult SubmitResult × Store :=
  match body with
  | .missing => (.failure 400 "INVALID_REQUEST", st)
  | .malformed => (.failure 400 "INVALID_JSON", st)
  | .parsed b =>
    if ¬ (truthy b.participantId && truthy b.sessionId
          && b.roundNumber.isSome && b.answer.isSome) then
      (.failure 400 "MISSING_FIELDS", st)
    else
      match b.answer with
      | none => (.failure 400 "INVALID_ANSWER", st)
      | some .jother => (.failure 400 "INVALID_ANSWER", st)
      | some (.jint answer) =>
        if answer < 0 ∨ answer > 3 then (.failure 400 "INVALID_ANSWER", st)
        else
          let pid := b.participantId.getD ""
          let sid := b.sessionId.getD ""
          let rn := b.roundNumber.getD 0
          match find_participation st pid sid with
          | none => (.failure 404 "PARTICIPATION_NOT_FOUND", st)
          | some participation =>
            match find_session st sid with
            | none => (.failure 404 "SESSION_NOT_FOUND", st)
            | some session =>
              if session.status.getD "draft" == "completed" then
                (.failure 403 "SESSION_COMPLETED", st)
              else
                match find_round st sid rn with
                | none => (.failure 404 "ROUND_NOT_FOUND", st)
                | some round =>
                  let isCorrect := answer == round.correctAnswer
                  let points := compute_points isCorrect session.roundStartedAt now
                  let answerItem : Answer :=
                    { answerId := st.nextId
                      participantId := pid
                      participationId := participation.participationId
                      sessionId := sid
                      tenantId := participation.tenantId
                      roundNumber := rn
                      answer := answer
                      isCorrect := isCorrect
                      points := points
                      submittedAt := now }
                  let newTotal := participation.totalPoints + points
                  let newCorrect := participation.correctAnswers + (if isCorrect then 1 else 0)
                  (.success 201 ⟨st.nextId, isCorrect, points, now⟩,
                   { st with
                       answers := put_answer st.answers answerItem
                       participations := update_participation_scores st.participations
                         participation.participationId newTotal newCorrect
                       nextId := st.nextId + 1 })

/-- The full submit-answer request as received: headers plus body.  The
handler reads nothing but `event["body"]`. -/
structure SubmitEvent where
  headers : List (String × String)
  body : ReqBody SubmitBody

/-- Embeds `submit_answer.lambda_handler` on a whole event. -/
def submit_answer (st : Store) (e : SubmitEvent) (now : Int) :
    HandlerResult SubmitResult × Store :=
  submit_answer_core st e.body now

/-! ## `add_round/handler.py` -/

/-- Parsed JSON body of an add-round request.  `answers` is `none` when the
field is absent or not a JSON list (the code's
`not answers or not isinstance(answers, list)` rejects both together with
the empty list). -/
structure AddRoundBody where
  question : Option String
  audioKey : Option String
  imageKey : Option String
  answers : Option (List String)
  correctAnswer : Option JsonVal
deriving Repr, DecidableEq

/-- The `role not in ["admin", "tenant_admin", "super_admin"]` check shared by
the admin handlers, applied to `payload.get("role", "admin")`. -/
def is_admin_role (role : String) : Bool :=
  role == "admin" || role == "tenant_admin" || role == "super_admin"

/-- Embeds `add_round.lambda_handler` from the decoded JWT payload on: `role` and
`adminTenantId` are `payload.get("role")` / `payload.get("tenantId")`,
`sessionId` the path parameter (`""` when missing/falsy), `createdAt` the
request timestamp.  The cap `MAX_ROUNDS_PER_SESSION = 30` is checked
against `session.get("roundCount", 0)` before the body is even parsed. -/
def add_round (st : Store) (role adminTenantId : Option String) (sessionId : String)
    (body : ReqBody AddRoundBody) (createdAt : Int) : HandlerResult Round × Store :=
  let role' := role.getD "admin"
  if ¬ is_admin_role role' then (.failure 403 "INSUFFICIENT_PERMISSIONS", st)
  else
    let ctx : TenantContext := ⟨none, some role', adminTenantId⟩
    if sessionId == "" then (.failure 400 "MISSING_SESSION_ID", st)
    else
      match find_session st sessionId with
      | none => (.failure 404 "SESSION_NOT_FOUND", st)
      | some session =>
        match (if truthy session.tenantId then validate_tenant_access ctx session.tenantId
               else none) with
        | some e => (.failure e.1 e.2, st)
        | none =>
          let currentRoundCount := session.roundCount.getD 0
          if currentRoundCount ≥ 30 then (.failure 409 "MAX_ROUNDS_REACHED", st)
          else
            match body with
            | .missing => (.failure 400 "INVALID_REQUEST", st)
            | .malformed => (.failure 400 "INVALID_JSON", st)
            | .parsed b =>
              if ¬ truthy b.question then (.failure 400 "MISSING_FIELDS", st)
              else
                let mediaType := session.mediaType.getD "audio"
                if mediaType == "audio" && !truthy b.audioKey then
                  (.failure 400 "MISSING_FIELDS", st)
                else if mediaType == "image" && !truthy b.imageKey then
                  (.failure 400 "MISSING_FIELDS", st)
                else
                  match b.answers with
                  | none => (.failure 400 "INVALID_ANSWERS", st)
                  | some answers =>
                    if answers.isEmpty then (.failure 400 "INVALID_ANSWERS", st)
                    else if answers.length ≠ 4 then (.failure 400 "INVALID_ANSWERS", st)
                    else
                      match b.correctAnswer with
                      | none => (.failure 400 "INVALID_CORRECT_ANSWER", st)
                      | some .jother => (.failure 400 "INVALID_CORRECT_ANSWER", st)
                      | some (.jint correctAnswer) =>
                        if correctAnswer < 0 ∨ correctAnswer > 3 then
                          (.failure 400 "INVALID_CORRECT_ANSWER", st)
                        else
                          let roundItem : Round :=
                            { roundId := st.nextId
                              sessionId := sessionId
                              roundNumber := (currentRoundCount : Int) + 1
                              question := b.question.getD ""
                              answers := answers
                              correctAnswer := correctAnswer
                              audioKey := if truthy b.audioKey then b.audioKey else none
                              imageKey := if truthy b.imageKey then b.imageKey else none
                              createdAt := createdAt }
                          (.success 201 roundItem,
                           { st with
                               rounds := put_round st.rounds roundItem
                               sessions := st.sessions.map (fun s =>
                                 if s.sessionId == sessionId then
                                   { s with roundCount := some (currentRoundCount + 1) }
                                 else s)
                               nextId := st.nextId + 1 })

/-! ## `delete_round/handler.py` -/

/-- Accumulating decimal-digit parser. -/
def parse_digits (cs : List Char) : Option Nat :=
  cs.foldl
    (fun acc c =>
      match acc with
      | none => none
      | some n => if c.isDigit then some (n * 10 + (c.toNat - 48)) else none)
    (some 0)

/-- Python `int(s)` on a decimal string (`none` models `ValueError`). -/
def parse_int (s : String) : Option Int :=
  match s.data with
  | [] => none
  | '-' :: rest => if rest.isEmpty then none else (parse_digits rest).map (fun n => -(n : Int))
  | cs => (parse_digits cs).map (fun n => (n : Int))

/-- Embeds `delete_round.lambda_handler` from the decoded JWT payload on.
`roundNumberStr` is the raw `roundNumber` path parameter.

Faithful to the source: line 103 calls
`validate_tenant_access(tenant_context, session_tenant_id)` but no variable
`tenant_context` is ever assigned in this handler, so whenever the session
has a truthy `tenantId` the `NameError` propagates to the outermost
`except` and becomes `500 INTERNAL_ERROR` — for same-tenant, cross-tenant
and super-admin callers alike. -/
def delete_round (st : Store) (role _adminTenantId : Option String)
    (sessionId roundNumberStr : String) : HandlerResult (String × Int) × Store :=
  let role' := role.getD "admin"
  if ¬ is_admin_role role' then (.failure 403 "INSUFFICIENT_PERMISSIONS", st)
  else if sessionId == "" || roundNumberStr == "" then
    (.failure 400 "MISSING_PARAMETERS", st)
  else
    match parse_int roundNumberStr with
    | none => (.failure 400 "INVALID_ROUND_NUMBER", st)
    | some roundNumber =>
      match find_session st sessionId with
      | none => (.failure 404 "SESSION_NOT_FOUND", st)
      | some session =>
        if truthy session.tenantId then
          -- NameError on the undefined `tenant_context`, caught by the
          -- catch-all: the tenant validation itself is never reached.
          (.failure 500 "INTERNAL_ERROR", st)
        else
          match find_round st sessionId roundNumber with
          | none => (.failure 404 "ROUND_NOT_FOUND", st)
          | some _ =>
            -- best-effort S3 delete of the audio object (no store effect),
            -- then delete the round and recompute the session round count
            -- from the remaining rounds.
            let remaining := st.rounds.filter (fun r =>
              !(r.sessionId == sessionId && r.roundNumber == roundNumber))
            let newCount := (remaining.filter (fun r => r.sessionId == sessionId)).length
            (.success 200 (sessionId, roundNumber),
             { st with
                 rounds := remaining
                 sessions := st.sessions.map (fun s =>
                   if s.sessionId == sessionId then { s with roundCount := some newCount }
                   else s) })

/-! ## Delete-session handler (`src/cdk/cdk.out/asset.a4a710dc.../handler.py`) -/

/-- Success body of a delete-session response. -/
structure DeleteSessionResult where
  sessionId : String
  deletedRounds : Nat
  deletedAudioFiles : Nat
deriving Repr, DecidableEq

/-- The deployed delete-session `lambda_handler` from the decoded JWT
payload on.  `s3Fails k` says whether `s3.delete_object` on key `k` raises
`ClientError`; a failed S3 delete is logged and skipped, and only
successful deletes increment `deleted_files`.  Round/session
`delete_item` calls succeed in this error-free store model, so every
queried round row is deleted and counted. -/
def delete_session (st : Store) (role : Option String) (sessionId : String)
    (s3Fails : String → Bool) : HandlerResult DeleteSessionResult × Store :=
  if role ≠ some "admin" then (.failure 403 "INSUFFICIENT_PERMISSIONS", st)
  else if sessionId == "" then (.failure 400 "MISSING_SESSION_ID", st)
  else
    match find_session st sessionId with
    | none => (.failure 404 "SESSION_NOT_FOUND", st)
    | some _ =>
      let rounds := st.rounds.filter (fun r => r.sessionId == sessionId)
      let deletedFiles :=
        rounds.countP (fun r => truthy r.audioKey && !s3Fails (r.audioKey.getD ""))
      let deletedRounds := rounds.length
      (.success 200 ⟨sessionId, deletedRounds, deletedFiles⟩,
       { st with
           rounds := st.rounds.filter (fun r => !(r.sessionId == sessionId))
           sessions := st.sessions.filter (fun s => !(s.sessionId == sessionId)) })

/-! ## `delete_tenant/handler.py` -/

/-- The full delete-tenant request: headers plus the `tenantId` path
parameter (`none` also covers the falsy `""`).  The handler performs no
token extraction at all. -/
structure DeleteTenantEvent where
  headers : List (String × String)
  pathTenantId : Option String
deriving Repr, DecidableEq

/-- Embeds `delete_tenant.lambda_handler` body: soft delete.  `now` is the
`datetime.utcnow().isoformat() + "Z"` timestamp. -/
def delete_tenant_core (st : Store) (pathTenantId : Option String) (now : String) :
    HandlerResult String × Store :=
  if ¬ truthy pathTenantId then (.failure 400 "MISSING_TENANT_ID", st)
  else
    let tid := pathTenantId.getD ""
    match find_tenant st tid with
    | none => (.failure 404 "TENANT_NOT_FOUND", st)
    | some _ =>
      (.success 200 tid,
       { st with tenants := st.tenants.map (fun t =>
           if t.tenantId == tid then { t with status := some "inactive", updatedAt := some now }
           else t) })

/-- Embeds `delete_tenant.lambda_handler` on a whole event: it reads only
`event["pathParameters"]["tenantId"]`. -/
def delete_tenant (st : Store) (e : DeleteTenantEvent) (now : String) :
    HandlerResult String × Store :=
  delete_tenant_core st e.pathTenantId now

/-! ## `get_scoreboard/handler.py` -/

/-- One scoreboard entry; `rank` is `0` until `assign_ranks` writes it,
mirroring the Python dict that gains a `"rank"` key only after sorting. -/
structure ScoreboardEntry where
  participantId : String
  name : String
  avatar : String
  totalPoints : Int
  correctAnswers : Int
  rank : Nat
deriving Repr, DecidableEq

/-- The participant-profile lookup in the scoreboard loop: try
`GlobalParticipants`, fall back to the legacy `Participants` table, fall
back to `("Unknown", "😀")`. -/
def lookup_name_avatar (st : Store) (pid : String) : String × String :=
  match st.globalParticipants.find? (fun g => g.participantId == pid) with
  | some g => (g.name.getD "Unknown", g.avatar.getD "😀")
  | none =>
    match st.legacyParticipants.find? (fun g => g.participantId == pid) with
    | some g => (g.name.getD "Unknown", g.avatar.getD "😀")
    | none => ("Unknown", "😀")

/-- The entry appended for one participation row. -/
def mkEntry (st : Store) (p : Participation) : ScoreboardEntry :=
  { participantId := p.participantId
    name := (lookup_name_avatar st p.participantId).1
    avatar := (lookup_name_avatar st p.participantId).2
    totalPoints := p.totalPoints
    correctAnswers := p.correctAnswers
    rank := 0 }

/-- The `continue` guard of the scoreboard loop:
`if session_tenant_id and participation.get("tenantId") != session_tenant_id`. -/
def scoreboard_keep (sessionTenantId : Option String) (p : Participation) : Bool :=
  !(truthy sessionTenantId && p.tenantId != sessionTenantId)

/-- The scoreboard-building loop of `get_scoreboard.lambda_handler`
(lines 88-131): one entry per participation row, skipping rows whose
`tenantId` disagrees with a truthy session `tenantId`. -/
def build_scoreboard (st : Store) (sessionTenantId : Option String) :
    List Participation → List ScoreboardEntry
  | [] => []
  | p :: rest =>
    if truthy sessionTenantId && p.tenantId != sessionTenantId then
      build_scoreboard st sessionTenantId rest
    else
      mkEntry st p :: build_scoreboard st sessionTenantId rest

/-- One step of Python's stable `list.sort(key=totalPoints, reverse=True)`:
insert an entry after every already-placed entry with ≥ its points. -/
def insert_desc (e : ScoreboardEntry) : List ScoreboardEntry → List ScoreboardEntry
  | [] => [e]
  | x :: xs => if e.totalPoints > x.totalPoints then e :: x :: xs else x :: insert_desc e xs

/-- Stable descending sort by `totalPoints`. -/
def sort_desc (l : List ScoreboardEntry) : List ScoreboardEntry :=
  l.foldl (fun acc e => insert_desc e acc) []

/-- The post-sort `entry["rank"] = index + 1` loop, unrolled from index
`i`. -/
def assign_ranks_from (i : Nat) : List ScoreboardEntry → List ScoreboardEntry
  | [] => []
  | e :: rest => { e with rank := i + 1 } :: assign_ranks_from (i + 1) rest

/-- The post-sort `entry["rank"] = index + 1` loop. -/
def assign_ranks (l : List ScoreboardEntry) : List ScoreboardEntry :=
  assign_ranks_from 0 l

/-- Success body of a scoreboard response. -/
structure ScoreboardResult where
  sessionId : String
  scoreboard : List ScoreboardEntry
deriving Repr, DecidableEq

/-- Embeds `get_scoreboard.lambda_handler` (read-only, so no post-store). -/
def get_scoreboard (st : Store) (sessionId : String) : HandlerResult ScoreboardResult :=
  if sessionId == "" then .failure 400 "MISSING_SESSION_ID"
  else
    match find_session st sessionId with
    | none => .failure 404 "SESSION_NOT_FOUND"
    | some session =>
      let parts := st.participations.filter (fun p => p.sessionId == sessionId)
      .success 200 ⟨sessionId, assign_ranks (sort_desc (build_scoreboard st session.tenantId parts))⟩

/-! ## Operation sequences (for the score-accumulation invariant) -/

/-- A participant-flow operation: a join-session request (post-auth) or a
submit-answer request. -/
inductive Op where
  | join (participantId participantTenantId sessionId joinedAt : String)
  | submit (participantId sessionId : String) (roundNumber : Int) (answer : Int) (now : Int)
deriving Repr, DecidableEq

/-- Execute one operation; a request that fails leaves the store exactly as
it was (every failure path of both handlers returns the unchanged store),
so running arbitrary operations reaches the same states as running only the
successful ones. -/
def apply_op (st : Store) : Op → Store
  | .join pid ptid sid t => (join_session st pid ptid sid t).2
  | .submit pid sid rn ans now =>
      (submit_answer_core st (.parsed ⟨some pid, some sid, some rn, some (.jint ans)⟩) now).2

def run_ops (init : Store) (ops : List Op) : Store := ops.foldl apply_op init

/-- Sum of `points` over the Answer rows with the given `participationId`. -/
def answerSum (as' : List Answer) (pid : Nat) : Int :=
  ((as'.filter (fun a => a.participationId == pid)).map Answer.points).sum

/-- Store well-formedness carried through the reachability induction:
generated ids are below the fresh counter, `participationId` is a genuine
key (no duplicates), and every participation's running `totalPoints` equals
the sum of its Answer rows' `points`. -/
def StoreWF (st : Store) : Prop :=
  (∀ p ∈ st.participations, p.participationId < st.nextId) ∧
  (∀ a ∈ st.answers, a.answerId < st.nextId) ∧
  (∀ a ∈ st.answers, a.participationId < st.nextId) ∧
  (st.participations.map Participation.participationId).Nodup ∧
  (∀ p ∈ st.participations, p.totalPoints = answerSum st.answers p.participationId)

/-- Repeating the same add-round request `k` times (the store evolves, the
request does not). -/
def add_round_seq (role adminTenantId : Option String) (sid : String) (b : AddRoundBody)
    (createdAt : Int) : Nat → Store → Store
  | 0, st => st
  | k + 1, st =>
      (add_round (add_round_seq role adminTenantId sid b createdAt k st)
        role adminTenantId sid (.parsed b) createdAt).2

/-! ## Concrete instances used by the closed witness/counterexample theorems -/

/-- A tenant-`T1` session holding one round, for the delete-round scenario. -/
def bugStore : Store :=
  { emptyStore with
      sessions := [⟨"S1", some "T1", none, some "audio", some 1, none⟩]
      rounds := [⟨0, "S1", 1, "q", ["a", "b", "c", "d"], 2, some "k.mp3", none, 0⟩]
      nextId := 1 }

/-- A fresh tenant-`T1` session nobody has joined yet. -/
def joinStore : Store :=
  { emptyStore with sessions := [⟨"S1", some "T1", none, none, some 0, none⟩] }

def joinStoreSession : Session := ⟨"S1", some "T1", none, none, some 0, none⟩

/-- A session with a started round, for the score-accumulation scenario. -/
def c4Init : Store :=
  { emptyStore with
      sessions := [⟨"S1", some "T1", none, none, some 1, some 100⟩]
      rounds := [⟨0, "S1", 1, "q", ["a", "b", "c", "d"], 2, none, none, 0⟩] }

/-- Join, then a correct fast answer (10 points), then a wrong answer. -/
def c4Ops : List Op :=
  [.join "P" "T1" "S1" "t", .submit "P" "S1" 1 2 101, .submit "P" "S1" 1 1 200]

/-- The participation row produced by `c4Ops` on `c4Init`. -/
def c4P : Participation := ⟨0, "P", "S1", some "T1", "t", 10, 1⟩

/-- A tenant-`T1` session with two audio rounds, for the cascade scenario. -/
def cascadeStore : Store :=
  { emptyStore with
      sessions := [⟨"S1", some "T1", none, some "audio", some 2, none⟩]
      rounds := [⟨0, "S1", 1, "q", [], 0, some "k1", none, 0⟩,
                 ⟨1, "S1", 2, "q", [], 0, some "k2", none, 0⟩]
      nextId := 2 }

/-- A tenant-`T1` session with one participation whose participant record
is missing from both participant tables, and one cross-tenant
participation. -/
def scoreboardStore : Store :=
  { emptyStore with
      sessions := [⟨"S1", some "T1", none, none, some 0, none⟩]
      participations := [⟨5, "ghost", "S1", some "T1", "t", 0, 0⟩,
                         ⟨6, "other", "S1", some "T2", "t", 7, 1⟩]
      nextId := 7 }

/-- A session and a joined participation, for the submit-answer witnesses. -/
def submitStore : Store :=
  { emptyStore with
      sessions := [⟨"S1", some "T1", none, none, some 1, some 100⟩]
      rounds := [⟨0, "S1", 1, "q", ["a", "b", "c", "d"], 2, none, none, 0⟩]
      participations := [⟨5, "P", "S1", some "T1", "t", 0, 0⟩]
      nextId := 6 }

/-- One active tenant, for the delete-tenant witness. -/
def tenantStore : Store :=
  { emptyStore with tenants := [⟨"T1", some "active", none⟩] }

/-- A valid add-round request body for an audio session. -/
def capBody : AddRoundBody :=
  ⟨some "q", some "a.mp3", none, some ["a", "b", "c", "d"], some (.jint 2)⟩

/-- An audio session of tenant `T1` with no rounds yet. -/
def capStore : Store :=
  { emptyStore with sessions := [⟨"S1", some "T1", none, some "audio", some 0, none⟩] }

def capSession : Session := ⟨"S1", some "T1", none, some "audio", some 0, none⟩

/-! ## Theorems -/

/-- **C2**, counterexample.  The claim says a resource without a `tenantId`
is always allowed "even when the caller has one"; but
`validate_tenant_access` for a `tenant_admin` of tenant `T2` on a resource
with no `tenantId` denies with `403 CROSS_TENANT_ACCESS` (the
legacy-compatibility passthrough lives in the handlers, which skip the call
when the resource has no tenant, not in the validator). -/
theorem validate_tenant_access_counterexample :
    validate_tenant_access ⟨none, some "tenant_admin", some "T2"⟩ none =
      some (403, "CROSS_TENANT_ACCESS") := by
  decide

/-- **C2** (amended).  `validate_tenant_access(callerRole, callerTenantId,
resourceTenantId)`: a `super_admin` caller is always allowed; every other
caller is allowed exactly when `callerTenantId` equals `resourceTenantId`,
with an absent tenant id compared as a value — so absent/absent allows,
absent/present denies, present/absent denies, and a mismatch denies, always
with `403 CROSS_TENANT_ACCESS`. -/
theorem validate_tenant_access_spec (ctx : TenantContext) (rid : Option String) :
    (ctx.role = some "super_admin" → validate_tenant_access ctx rid = none) ∧
    (ctx.role ≠ some "super_admin" →
      (ctx.tenantId = rid → validate_tenant_access ctx rid = none) ∧
      (ctx.tenantId ≠ rid →
        validate_tenant_access ctx rid = some (403, "CROSS_TENANT_ACCESS"))) := by
  unfold validate_tenant_access
  refine ⟨fun h => by simp [h], fun h => ⟨fun he => by simp [h, he], fun hne => by simp [h, hne]⟩⟩

/-- Closed instance of `validate_tenant_access_spec`: a `tenant_admin` of
`T1` is allowed on a `T1` resource. -/
theorem validate_tenant_access_spec_witness :
    validate_tenant_access ⟨none, some "tenant_admin", some "T1"⟩ (some "T1") = none :=
  ((validate_tenant_access_spec ⟨none, some "tenant_admin", some "T1"⟩ (some "T1")).2
    (by decide)).1 rfl

/-- **C1** (code bug).  A `tenant_admin` of tenant `T2` targeting the
tenant-`T1` session `S1` of `bugStore`: `add_round` and `join_session`
reject with `403 CROSS_TENANT_ACCESS` as the claim states, but
`delete_round` trips over the undefined name `tenant_context` at
`delete_round/handler.py:103` and its catch-all turns the `NameError` into
`500 INTERNAL_ERROR` — for a same-tenant caller just as for a cross-tenant
one, so the delete-round handler never produces `403
CROSS_TENANT_ACCESS`. -/
theorem delete_round_cross_tenant_returns_500 :
    (delete_round bugStore (some "tenant_admin") (some "T2") "S1" "1").1 =
      .failure 500 "INTERNAL_ERROR" ∧
    (delete_round bugStore (some "tenant_admin") (some "T1") "S1" "1").1 =
      .failure 500 "INTERNAL_ERROR" ∧
    (add_round bugStore (some "tenant_admin") (some "T2") "S1" (.parsed capBody) 0).1 =
      .failure 403 "CROSS_TENANT_ACCESS" ∧
    (join_session bugStore "P" "T2" "S1" "t").1 = .failure 403 "CROSS_TENANT_ACCESS" := by
  refine ⟨?_, ?_, ?_, ?_⟩ <;> decide

/-- **C5**.  The scoring block: a wrong answer scores 0; a correct answer
with no (truthy) recorded round start scores 5; with a recorded start it
scores 10 within 2 seconds, 8 within 5 seconds and 5 beyond; no award is
ever negative. -/
theorem submit_answer_scoring (answer correctAnswer : Int) (roundStartedAt : Option Int)
    (now : Int) :
    (answer ≠ correctAnswer →
      compute_points (answer == correctAnswer) roundStartedAt now = 0) ∧
    (answer = correctAnswer →
      (roundStartedAt.getD 0 = 0 →
        compute_points (answer == correctAnswer) roundStartedAt now = 5) ∧
      (∀ t, roundStartedAt = some t → t ≠ 0 →
        (now - t ≤ 2 → compute_points (answer == correctAnswer) roundStartedAt now = 10) ∧
        (2 < now - t → now - t ≤ 5 →
          compute_points (answer == correctAnswer) roundStartedAt now = 8) ∧
        (5 < now - t → compute_points (answer == correctAnswer) roundStartedAt now = 5))) ∧
    0 ≤ compute_points (answer == correctAnswer) roundStartedAt now := by
  refine ⟨?_, ?_, ?_⟩
  · intro h
    have hb : (answer == correctAnswer) = false := by simp [h]
    simp [compute_points, hb]
  · intro h
    have hb : (answer == correctAnswer) = true := by simp [h]
    refine ⟨?_, ?_⟩
    · intro h0
      simp [compute_points, hb, h0]
    · intro t ht hne
      subst ht
      refine ⟨?_, ?_, ?_⟩
      · intro hle
        simp [compute_points, hb, Option.getD, hne, hle]
      · intro h2 h5
        have hnot : ¬ (now - t ≤ 2) := by omega
        simp [compute_points, hb, Option.getD, hne, hnot, h5]
      · intro h5
        have h2' : ¬ (now - t ≤ 2) := by omega
        have h5' : ¬ (now - t ≤ 5) := by omega
        simp [compute_points, hb, Option.getD, hne, h2', h5']
  · simp only [compute_points]
    split_ifs <;> norm_num

/-- Closed instance of `submit_answer_scoring`: a correct answer one second
after the round start scores 10. -/
theorem submit_answer_scoring_witness :
    compute_points ((2 : Int) == 2) (some 100) 101 = 10 :=
  (((submit_answer_scoring 2 2 (some 100) 101).2.1 rfl).2 100 rfl (by decide)).1 (by decide)

/-- **C10**.  The delete-tenant handler performs no authentication or role
check: its result depends only on the `tenantId` path parameter; for an
existing tenant it soft-deletes (status `inactive`, fresh `updatedAt`) and
returns 200 whatever the headers say; and no input whatsoever yields a 401
or a 403. -/
theorem delete_tenant_no_auth (st : Store) (now : String) :
    (∀ e1 e2 : DeleteTenantEvent, e1.pathTenantId = e2.pathTenantId →
      delete_tenant st e1 now = delete_tenant st e2 now) ∧
    (∀ (e : DeleteTenantEvent) (tid : String) (t : Tenant),
      e.pathTenantId = some tid → tid ≠ "" → find_tenant st tid = some t →
      delete_tenant st e now =
        (.success 200 tid,
         { st with tenants := st.tenants.map (fun t' =>
             if t'.tenantId == tid then
               { t' with status := some "inactive", updatedAt := some now }
             else t') })) ∧
    (∀ e : DeleteTenantEvent,
      (delete_tenant st e now).1.status ≠ 401 ∧ (delete_tenant st e now).1.status ≠ 403) := by
  refine ⟨?_, ?_, ?_⟩
  · intro e1 e2 h
    simp [delete_tenant, h]
  · intro e tid t he htid hfind
    have ht : truthy (some tid) = true := by simp [truthy, htid]
    simp [delete_tenant, delete_tenant_core, he, ht, hfind]
  · intro e
    unfold delete_tenant delete_tenant_core
    split_ifs with h
    all_goals
      rcases hf : find_tenant st (e.pathTenantId.getD "") with _ | t <;>
        simp [hf, HandlerResult.status]

/-- Closed instance of `delete_tenant_no_auth`: with no Authorization
header at all, the existing tenant `T1` is soft-deleted with 200. -/
theorem delete_tenant_no_auth_witness :
    delete_tenant tenantStore ⟨[], some "T1"⟩ "now0" =
      (.success 200 "T1",
       { tenantStore with tenants := [⟨"T1", some "inactive", some "now0"⟩] }) := by
  have h := (delete_tenant_no_auth tenantStore "now0").2.1 ⟨[], some "T1"⟩ "T1"
    ⟨"T1", some "active", none⟩ rfl (by decide) (by decide)
  rw [h]; rfl

/-- Case analysis over every path of `submit_answer_core`: the handler's
statuses are 400/403/404/201 and its error codes never include the
authentication codes. -/
theorem submit_answer_core_codes (st : Store) (bd : ReqBody SubmitBody) (now : Int) :
    (submit_answer_core st bd now).1.status ≠ 401 ∧
    (submit_answer_core st bd now).1.errorCode ≠ some "MISSING_TOKEN" ∧
    (submit_answer_core st bd now).1.errorCode ≠ some "INVALID_TOKEN" := by
  rcases bd with _ | _ | b
  · refine ⟨?_, ?_, ?_⟩ <;>
      simp [submit_answer_core, HandlerResult.status, HandlerResult.errorCode]
  · refine ⟨?_, ?_, ?_⟩ <;>
      simp [submit_answer_core, HandlerResult.status, HandlerResult.errorCode]
  · unfold submit_answer_core
    dsimp only
    split
    · simp [HandlerResult.status, HandlerResult.errorCode]
    · split
      · simp [HandlerResult.status, HandlerResult.errorCode]
      · simp [HandlerResult.status, HandlerResult.errorCode]
      · split
        · simp [HandlerResult.status, HandlerResult.errorCode]
        · split
          · simp [HandlerResult.status, HandlerResult.errorCode]
          · split
            · simp [HandlerResult.status, HandlerResult.errorCode]
            · split
              · simp [HandlerResult.status, HandlerResult.errorCode]
              · split
                · simp [HandlerResult.status, HandlerResult.errorCode]
                · simp [HandlerResult.status, HandlerResult.errorCode]

/-- **C9**.  The submit-answer handler performs no authentication: its
result (response and store effect) depends only on the request body, never
on headers, so the acting participant is whatever `participantId` the body
names; and no input yields a 401 or the `MISSING_TOKEN`/`INVALID_TOKEN`
error codes. -/
theorem submit_answer_no_auth (st : Store) (now : Int) :
    (∀ e1 e2 : SubmitEvent, e1.body = e2.body →
      submit_answer st e1 now = submit_answer st e2 now) ∧
    (∀ e : SubmitEvent,
      (submit_answer st e now).1.status ≠ 401 ∧
      (submit_answer st e now).1.errorCode ≠ some "MISSING_TOKEN" ∧
      (submit_answer st e now).1.errorCode ≠ some "INVALID_TOKEN") := by
  constructor
  · intro e1 e2 h
    simp [submit_answer, h]
  · intro e
    exact submit_answer_core_codes st e.body now

/-- Closed instance of `submit_answer_no_auth`: two submit requests
differing only in the Authorization header get identical results. -/
theorem submit_answer_no_auth_witness :
    submit_answer submitStore
        ⟨[("Authorization", "Bearer forged")],
         .parsed ⟨some "P", some "S1", some 1, some (.jint 2)⟩⟩ 101 =
      submit_answer submitStore
        ⟨[], .parsed ⟨some "P", some "S1", some 1, some (.jint 2)⟩⟩ 101 :=
  (submit_answer_no_auth submitStore 101).1
    ⟨[("Authorization", "Bearer forged")],
     .parsed ⟨some "P", some "S1", some 1, some (.jint 2)⟩⟩
    ⟨[], .parsed ⟨some "P", some "S1", some 1, some (.jint 2)⟩⟩ rfl

/-- **C7**, counterexample.  Session `S1` of `cascadeStore` has N = 2
rounds, K = 2 of them with audio; the S3 delete of key `k2` fails; the 200
response reports `deletedAudioFiles = 1`, not K = 2 — only *successful* S3
deletes are counted. -/
theorem delete_session_counterexample :
    (delete_session cascadeStore (some "admin") "S1" (fun k => k == "k2")).1 =
      .success 200 ⟨"S1", 2, 1⟩ ∧
    (cascadeStore.rounds.filter (fun r => r.sessionId == "S1")).countP
        (fun r => truthy r.audioKey) = 2 :=
  ⟨rfl, rfl⟩

/-- **C7** (amended).  Deleting an existing session as `admin` returns 200
with `deletedRounds` = N (the number of the session's round rows — S3
failures never abort the cascade or reduce this count) and
`deletedAudioFiles` = the number of audio-bearing rounds whose S3 delete
succeeded; that equals K, the number of audio-bearing rounds, exactly when
no S3 delete of their keys fails, and never exceeds K. -/
theorem delete_session_cascade_counts (st : Store) (sid : String) (s3Fails : String → Bool)
    (s : Session) (hsid : sid ≠ "") (hs : find_session st sid = some s) :
    ∃ res : DeleteSessionResult,
      (delete_session st (some "admin") sid s3Fails).1 = .success 200 res ∧
      res.sessionId = sid ∧
      res.deletedRounds = (st.rounds.filter (fun r => r.sessionId == sid)).length ∧
      res.deletedAudioFiles ≤
        (st.rounds.filter (fun r => r.sessionId == sid)).countP (fun r => truthy r.audioKey) ∧
      ((∀ r ∈ st.rounds.filter (fun r => r.sessionId == sid),
          truthy r.audioKey → s3Fails (r.audioKey.getD "") = false) →
        res.deletedAudioFiles =
          (st.rounds.filter (fun r => r.sessionId == sid)).countP (fun r => truthy r.audioKey)) := by
  have hsid' : (sid == "") = false := by simp [hsid]
  refine ⟨⟨sid, (st.rounds.filter (fun r => r.sessionId == sid)).length,
    (st.rounds.filter (fun r => r.sessionId == sid)).countP
      (fun r => truthy r.audioKey && !s3Fails (r.audioKey.getD ""))⟩, ?_, rfl, rfl, ?_, ?_⟩
  · simp [delete_session, hsid', hs]
  · exact List.countP_mono_left (fun r _ h => by
      simp only [Bool.and_eq_true] at h
      exact h.1)
  · intro hok
    refine List.countP_congr (fun r hr => ?_)
    constructor
    · intro h
      simp only [Bool.and_eq_true] at h
      exact h.1
    · intro h
      simp [h, hok r hr h]

/-- Closed instance of `delete_session_cascade_counts`: no S3 failures, two
rounds with one audio key, reported as `deletedRounds = 2`,
`deletedAudioFiles = 2`. -/
theorem delete_session_cascade_counts_witness :
    (delete_session cascadeStore (some "admin") "S1" (fun _ => false)).1 =
      .success 200 ⟨"S1", 2, 2⟩ := by
  obtain ⟨res, h1, h0, h2, _, h4⟩ :=
    delete_session_cascade_counts cascadeStore "S1" (fun _ => false)
      ⟨"S1", some "T1", none, some "audio", some 2, none⟩ (by decide) rfl
  have h4' := h4 (fun r _ _ => rfl)
  have hres : res = ⟨"S1", 2, 2⟩ := by
    have hN : (cascadeStore.rounds.filter (fun r => r.sessionId == "S1")).length = 2 := rfl
    have hK : (cascadeStore.rounds.filter (fun r => r.sessionId == "S1")).countP
        (fun r => truthy r.audioKey) = 2 := rfl
    cases res
    dsimp only at h0 h2 h4'
    rw [hN] at h2
    rw [hK] at h4'
    simp [h0, h2, h4']
  rw [h1, hres]

/-- A row found by `find_participation` is a row of the table carrying the
queried participant and session ids. -/
theorem find_participation_mem {st : Store} {pid sid : String} {p : Participation}
    (h : find_participation st pid sid = some p) :
    p ∈ st.participations ∧ p.participantId = pid ∧ p.sessionId = sid := by
  unfold find_participation at h
  have hm := List.mem_of_find?_eq_some h
  have hp := List.find?_some h
  rw [List.mem_filter] at hm
  exact ⟨hm.1, by simpa using hm.2, by simpa using hp⟩

/-- **C3**.  Joining an accessible session is idempotent: an existing
(participant, session) participation row is returned unchanged with 200 and
no store mutation; otherwise a fresh row with `totalPoints = 0` and
`correctAnswers = 0` is created and returned with 201; consequently two
sequential joins return the same `participationId` and the second returns
200, not 201. -/
theorem join_session_idempotent (st : Store) (pid ptid sid t1 t2 : String)
    (hsid : sid ≠ "") (s : Session) (hs : find_session st sid = some s)
    (hacc : truthy s.tenantId = false ∨ s.tenantId = some ptid)
    (hfresh : ∀ p ∈ st.participations, p.participationId < st.nextId) :
    (∀ p, find_participation st pid sid = some p →
        join_session st pid ptid sid t1 = (.success 200 p, st)) ∧
    (find_participation st pid sid = none →
        ∃ pnew : Participation,
          join_session st pid ptid sid t1 =
            (.success 201 pnew,
             { st with participations := st.participations ++ [pnew]
                       nextId := st.nextId + 1 }) ∧
          pnew.participationId = st.nextId ∧ pnew.participantId = pid ∧
          pnew.sessionId = sid ∧ pnew.totalPoints = 0 ∧ pnew.correctAnswers = 0) ∧
    ((join_session (join_session st pid ptid sid t1).2 pid ptid sid t2).1.status = 200 ∧
     ((join_session (join_session st pid ptid sid t1).2 pid ptid sid t2).1.body?.map
         Participation.participationId) =
       ((join_session st pid ptid sid t1).1.body?.map Participation.participationId) ∧
     ((join_session st pid ptid sid t1).1.body?).isSome = true) := by
  have hsid' : (sid == "") = false := by simp [hsid]
  have tcheck : (if truthy s.tenantId then
      validate_participant_tenant_access (some ptid) s.tenantId else none) = none := by
    rcases hacc with h | h
    · simp [h]
    · rw [h]
      cases truthy (some ptid) <;> simp [validate_participant_tenant_access]
  have hany : st.participations.any (fun q => q.participationId == st.nextId) = false := by
    rw [List.any_eq_false]
    intro q hq
    have hlt := hfresh q hq
    simp only [beq_iff_eq]
    omega
  have h200 : ∀ (t : String) (p : Participation), find_participation st pid sid = some p →
      join_session st pid ptid sid t = (.success 200 p, st) := by
    intro t p hp
    simp [join_session, hsid', hs, tcheck, hp]
  have h201 : find_participation st pid sid = none →
      ∃ pnew : Participation,
        join_session st pid ptid sid t1 =
          (.success 201 pnew,
           { st with participations := st.participations ++ [pnew]
                     nextId := st.nextId + 1 }) ∧
        pnew.participationId = st.nextId ∧ pnew.participantId = pid ∧
        pnew.sessionId = sid ∧ pnew.totalPoints = 0 ∧ pnew.correctAnswers = 0 := by
    intro hnone
    refine ⟨⟨st.nextId, pid, sid, if truthy s.tenantId then s.tenantId else some ptid, t1, 0, 0⟩,
      ?_, rfl, rfl, rfl, rfl, rfl⟩
    simp [join_session, hsid', hs, tcheck, hnone, put_participation, hany]
  refine ⟨h200 t1, h201, ?_⟩
  rcases hfp : find_participation st pid sid with _ | p
  · obtain ⟨pnew, hj1, hid, hpid2, hsid2, htp, hca⟩ := h201 hfp
    have hfp2 : find_participation
        { st with participations := st.participations ++ [pnew]
                  nextId := st.nextId + 1 } pid sid = some pnew := by
      unfold find_participation at hfp ⊢
      dsimp only
      rw [List.filter_append, List.find?_append, hfp]
      simp [hpid2, hsid2]
    have hj2 : join_session
        { st with participations := st.participations ++ [pnew]
                  nextId := st.nextId + 1 } pid ptid sid t2 =
        (.success 200 pnew,
         { st with participations := st.participations ++ [pnew]
                   nextId := st.nextId + 1 }) := by
      have hs2 : find_session
          { st with participations := st.participations ++ [pnew]
                    nextId := st.nextId + 1 } sid = some s := hs
      simp [join_session, hsid', hs2, tcheck, hfp2]
    rw [hj1]
    dsimp only
    rw [hj2]
    simp [HandlerResult.status, HandlerResult.body?]
  · have hj1 := h200 t1 p hfp
    have hj2 := h200 t2 p hfp
    rw [hj1]
    dsimp only
    rw [hj2]
    simp [HandlerResult.status, HandlerResult.body?]

/-- Closed instance of `join_session_idempotent` on `joinStore`: the second
of two sequential joins returns 200 and the same participation id the first
returned. -/
theorem join_session_idempotent_witness :
    (join_session (join_session joinStore "P" "T1" "S1" "t0").2 "P" "T1" "S1" "t1").1.status =
      200 ∧
    ((join_session (join_session joinStore "P" "T1" "S1" "t0").2 "P" "T1" "S1" "t1").1.body?.map
        Participation.participationId) =
      ((join_session joinStore "P" "T1" "S1" "t0").1.body?.map Participation.participationId) ∧
    ((join_session joinStore "P" "T1" "S1" "t0").1.body?).isSome = true :=
  (join_session_idempotent joinStore "P" "T1" "S1" "t0" "t1" (by decide) joinStoreSession rfl
    (Or.inr rfl) (by decide)).2.2

/-- On a list update that rewrites only `roundCount` of the matching
session, `find?` returns the updated session. -/
theorem find_session_list_update {l : List Session} {sid : String} {s : Session} (n : Nat)
    (hs : l.find? (fun s' => s'.sessionId == sid) = some s) :
    (l.map (fun s' => if s'.sessionId == sid then { s' with roundCount := some n } else s')).find?
        (fun s' => s'.sessionId == sid) = some { s with roundCount := some n } := by
  have hps := List.find?_some hs
  rw [List.find?_map]
  have hpf : ((fun s' : Session => s'.sessionId == sid) ∘
      (fun s' => if s'.sessionId == sid then { s' with roundCount := some n } else s')) =
      (fun s' : Session => s'.sessionId == sid) := by
    funext s'
    by_cases h : s'.sessionId = sid <;> simp [h]
  rw [hpf, hs]
  simp only [Option.map_some']
  rw [if_pos hps]

/-- One add-round request against a session whose stored round count is
`n`: below the cap it creates round `n + 1` and bumps the stored count;
at or above the cap it fails with `409 MAX_ROUNDS_REACHED` and leaves the
store untouched. -/
theorem add_round_step (st : Store) (role adminTenantId : Option String) (sid : String)
    (b : AddRoundBody) (createdAt : Int) (s : Session)
    (hrole : is_admin_role (role.getD "admin") = true)
    (hsid : sid ≠ "")
    (hs : find_session st sid = some s)
    (hacc : truthy s.tenantId = false ∨
      validate_tenant_access ⟨none, some (role.getD "admin"), adminTenantId⟩ s.tenantId = none)
    (hq : truthy b.question = true)
    (haud : s.mediaType.getD "audio" = "audio" → truthy b.audioKey = true)
    (himg : s.mediaType.getD "audio" = "image" → truthy b.imageKey = true)
    (has : ∃ a1 a2 a3 a4, b.answers = some [a1, a2, a3, a4])
    (hca : ∃ ca : Int, b.correctAnswer = some (.jint ca) ∧ 0 ≤ ca ∧ ca ≤ 3) :
    (s.roundCount.getD 0 < 30 →
      ∃ r : Round,
        add_round st role adminTenantId sid (.parsed b) createdAt =
          (.success 201 r,
           { st with
               rounds := put_round st.rounds r
               sessions := st.sessions.map (fun s' =>
                 if s'.sessionId == sid then
                   { s' with roundCount := some (s.roundCount.getD 0 + 1) }
                 else s')
               nextId := st.nextId + 1 }) ∧
        r.roundNumber = (s.roundCount.getD 0 : Int) + 1 ∧ r.sessionId = sid) ∧
    (30 ≤ s.roundCount.getD 0 →
      add_round st role adminTenantId sid (.parsed b) createdAt =
        (.failure 409 "MAX_ROUNDS_REACHED", st)) := by
  have hsid' : (sid == "") = false := by simp [hsid]
  have tcheck : (if truthy s.tenantId then
      validate_tenant_access ⟨none, some (role.getD "admin"), adminTenantId⟩ s.tenantId
      else none) = none := by
    rcases hacc with h | h
    · simp [h]
    · cases truthy s.tenantId <;> simp [h]
  obtain ⟨a1, a2, a3, a4, hasq⟩ := has
  obtain ⟨ca, hcaq, hca0, hca3⟩ := hca
  have hc1 : ((s.mediaType.getD "audio" == "audio") && !truthy b.audioKey) = false := by
    by_cases h : s.mediaType.getD "audio" = "audio"
    · simp [h, haud h]
    · simp [h]
  have hc2 : ((s.mediaType.getD "audio" == "image") && !truthy b.imageKey) = false := by
    by_cases h : s.mediaType.getD "audio" = "image"
    · simp [h, himg h]
    · simp [h]
  have hrange : ¬ (ca < 0 ∨ ca > 3) := by omega
  constructor
  · intro hlt
    have hnot : ¬ (s.roundCount.getD 0 ≥ 30) := by omega
    refine ⟨⟨st.nextId, sid, (s.roundCount.getD 0 : Int) + 1, b.question.getD "",
      [a1, a2, a3, a4], ca, if truthy b.audioKey then b.audioKey else none,
      if truthy b.imageKey then b.imageKey else none, createdAt⟩, ?_, rfl, rfl⟩
    simp [add_round, hrole, hsid', hs, tcheck, hnot, hq, hc1, hc2, hasq, hcaq, hrange]
  · intro hge
    have hyes : s.roundCount.getD 0 ≥ 30 := hge
    simp [add_round, hrole, hsid', hs, tcheck, hyes]

/-- After `k ≤ 30` repetitions of a valid add-round request against a
session whose stored round count starts at 0, the stored round count is
`k`. -/
theorem add_round_seq_session (st : Store) (role adminTenantId : Option String) (sid : String)
    (b : AddRoundBody) (createdAt : Int) (s : Session)
    (hrole : is_admin_role (role.getD "admin") = true)
    (hsid : sid ≠ "")
    (hs : find_session st sid = some s)
    (hacc : truthy s.tenantId = false ∨
      validate_tenant_access ⟨none, some (role.getD "admin"), adminTenantId⟩ s.tenantId = none)
    (hq : truthy b.question = true)
    (haud : s.mediaType.getD "audio" = "audio" → truthy b.audioKey = true)
    (himg : s.mediaType.getD "audio" = "image" → truthy b.imageKey = true)
    (has : ∃ a1 a2 a3 a4, b.answers = some [a1, a2, a3, a4])
    (hca : ∃ ca : Int, b.correctAnswer = some (.jint ca) ∧ 0 ≤ ca ∧ ca ≤ 3)
    (hn0 : s.roundCount = some 0) :
    ∀ k : Nat, k ≤ 30 →
      find_session (add_round_seq role adminTenantId sid b createdAt k st) sid =
        some { s with roundCount := some k } := by
  intro k
  induction k with
  | zero =>
    intro _
    have heta : ({ s with roundCount := some (0 : Nat) } : Session) = s := by
      cases s
      dsimp only at hn0
      simp [hn0]
    show find_session st sid = some { s with roundCount := some 0 }
    rw [heta]
    exact hs
  | succ k ih =>
    intro hk
    have hsk := ih (by omega)
    obtain ⟨hstep1, _⟩ := add_round_step (add_round_seq role adminTenantId sid b createdAt k st)
      role adminTenantId sid b createdAt { s with roundCount := some k }
      hrole hsid hsk hacc hq haud himg has hca
    obtain ⟨r, heq, hrn, hsidr⟩ := hstep1 (by simpa using (by omega : k < 30))
    show find_session (add_round (add_round_seq role adminTenantId sid b createdAt k st)
      role adminTenantId sid (.parsed b) createdAt).2 sid = _
    rw [heq]
    exact @find_session_list_update
      (add_round_seq role adminTenantId sid b createdAt k st).sessions sid
      { s with roundCount := some k }
      (({ s with roundCount := some k } : Session).roundCount.getD 0 + 1) hsk

/-- **C6**.  Against a session whose stored `roundCount` is `n`, a valid
add-round request below the cap succeeds with 201 and `roundNumber = n + 1`
(bumping the stored count to `n + 1`); with `n ≥ 30` it fails with `409
MAX_ROUNDS_REACHED` and creates nothing; hence starting from `roundCount =
0` the 1st through 30th identical valid requests succeed with
`roundNumber` 1..30 and the 31st fails with `409 MAX_ROUNDS_REACHED`. -/
theorem add_round_cap (st : Store) (role adminTenantId : Option String) (sid : String)
    (b : AddRoundBody) (createdAt : Int) (s : Session)
    (hrole : is_admin_role (role.getD "admin") = true)
    (hsid : sid ≠ "")
    (hs : find_session st sid = some s)
    (hacc : truthy s.tenantId = false ∨
      validate_tenant_access ⟨none, some (role.getD "admin"), adminTenantId⟩ s.tenantId = none)
    (hq : truthy b.question = true)
    (haud : s.mediaType.getD "audio" = "audio" → truthy b.audioKey = true)
    (himg : s.mediaType.getD "audio" = "image" → truthy b.imageKey = true)
    (has : ∃ a1 a2 a3 a4, b.answers = some [a1, a2, a3, a4])
    (hca : ∃ ca : Int, b.correctAnswer = some (.jint ca) ∧ 0 ≤ ca ∧ ca ≤ 3) :
    (s.roundCount.getD 0 < 30 →
      ∃ r : Round,
        add_round st role adminTenantId sid (.parsed b) createdAt =
          (.success 201 r,
           { st with
               rounds := put_round st.rounds r
               sessions := st.sessions.map (fun s' =>
                 if s'.sessionId == sid then
                   { s' with roundCount := some (s.roundCount.getD 0 + 1) }
                 else s')
               nextId := st.nextId + 1 }) ∧
        r.roundNumber = (s.roundCount.getD 0 : Int) + 1 ∧ r.sessionId = sid) ∧
    (30 ≤ s.roundCount.getD 0 →
      add_round st role adminTenantId sid (.parsed b) createdAt =
        (.failure 409 "MAX_ROUNDS_REACHED", st)) ∧
    (s.roundCount = some 0 →
      (∀ k : Nat, k < 30 →
        ∃ r : Round,
          (add_round (add_round_seq role adminTenantId sid b createdAt k st)
              role adminTenantId sid (.parsed b) createdAt).1 = .success 201 r ∧
          r.roundNumber = (k : Int) + 1) ∧
      (add_round (add_round_seq role adminTenantId sid b createdAt 30 st)
          role adminTenantId sid (.parsed b) createdAt).1 =
        .failure 409 "MAX_ROUNDS_REACHED") := by
  obtain ⟨h1, h2⟩ := add_round_step st role adminTenantId sid b createdAt s
    hrole hsid hs hacc hq haud himg has hca
  refine ⟨h1, h2, ?_⟩
  intro hn0
  have hseq := add_round_seq_session st role adminTenantId sid b createdAt s
    hrole hsid hs hacc hq haud himg has hca hn0
  constructor
  · intro k hk
    have hsk := hseq k (by omega)
    obtain ⟨hstep1, _⟩ := add_round_step (add_round_seq role adminTenantId sid b createdAt k st)
      role adminTenantId sid b createdAt { s with roundCount := some k }
      hrole hsid hsk hacc hq haud himg has hca
    obtain ⟨r, heq, hrn, _⟩ := hstep1 (by simpa using hk)
    refine ⟨r, by rw [heq], by simpa using hrn⟩
  · have hsk := hseq 30 (by omega)
    obtain ⟨_, hstep2⟩ := add_round_step (add_round_seq role adminTenantId sid b createdAt 30 st)
      role adminTenantId sid b createdAt { s with roundCount := some 30 }
      hrole hsid hsk hacc hq haud himg has hca
    have hfin := hstep2 (by simp)
    rw [hfin]

/-- Closed instance of `add_round_cap` on `capStore`: after 30 successful
additions the 31st identical valid request is rejected with
`409 MAX_ROUNDS_REACHED`. -/
theorem add_round_cap_witness :
    (add_round (add_round_seq (some "tenant_admin") (some "T1") "S1" capBody 0 30 capStore)
        (some "tenant_admin") (some "T1") "S1" (.parsed capBody) 0).1 =
      .failure 409 "MAX_ROUNDS_REACHED" :=
  ((add_round_cap capStore (some "tenant_admin") (some "T1") "S1" capBody 0 capSession
      rfl (by decide) rfl (Or.inr rfl) rfl (fun _ => rfl)
      (fun h => absurd h (by decide)) ⟨"a", "b", "c", "d", rfl⟩
      ⟨2, rfl, by decide, by decide⟩).2.2 rfl).2

/-- Inserting into the sorted prefix permutes `e :: l`. -/
theorem insert_desc_perm (e : ScoreboardEntry) (l : List ScoreboardEntry) :
    List.Perm (insert_desc e l) (e :: l) := by
  induction l with
  | nil => exact List.Perm.refl _
  | cons x xs ih =>
    unfold insert_desc
    split
    · exact List.Perm.refl _
    · exact (ih.cons x).trans (List.Perm.swap e x xs)

theorem sort_desc_perm_aux (l acc : List ScoreboardEntry) :
    List.Perm (l.foldl (fun acc e => insert_desc e acc) acc) (acc ++ l) := by
  induction l generalizing acc with
  | nil => simp
  | cons x xs ih =>
    show List.Perm (xs.foldl (fun acc e => insert_desc e acc) (insert_desc x acc)) (acc ++ x :: xs)
    refine (ih (insert_desc x acc)).trans ?_
    refine ((insert_desc_perm x acc).append_right xs).trans ?_
    exact List.perm_middle.symm

/-- Python's stable sort permutes the list. -/
theorem sort_desc_perm (l : List ScoreboardEntry) : List.Perm (sort_desc l) l := by
  simpa using sort_desc_perm_aux l []

/-- Writing ranks does not change any other field. -/
theorem assign_ranks_from_strip (i : Nat) (l : List ScoreboardEntry) :
    (assign_ranks_from i l).map (fun e => { e with rank := 0 }) =
      l.map (fun e => { e with rank := 0 }) := by
  induction l generalizing i with
  | nil => rfl
  | cons x xs ih =>
    unfold assign_ranks_from
    simp only [List.map_cons, ih]

/-- The scoreboard-building loop is the filter of the tenant guard followed
by the entry construction. -/
theorem build_scoreboard_eq (st : Store) (stid : Option String) (ps : List Participation) :
    build_scoreboard st stid ps = (ps.filter (scoreboard_keep stid)).map (mkEntry st) := by
  induction ps with
  | nil => rfl
  | cons p rest ih =>
    unfold build_scoreboard
    by_cases h : (truthy stid && p.tenantId != stid) = true
    · rw [if_pos h, ih, List.filter_cons]
      have : scoreboard_keep stid p = false := by simp [scoreboard_keep, h]
      rw [this]
      simp
    · rw [if_neg h, ih, List.filter_cons]
      have : scoreboard_keep stid p = true := by
        simp only [scoreboard_keep]
        simp only [Bool.not_eq_true] at h
        simp [h]
      rw [this]
      simp [mkEntry]

/-- **C8**, counterexample.  In `scoreboardStore` the participation of
`"ghost"` has no participant record in either participant table, yet its
scoreboard entry is *kept*, rendered with the fallback name `"Unknown"` —
the claim says such entries are dropped.  (The cross-tenant participation
of `"other"` is dropped, as both claim and code agree.) -/
theorem get_scoreboard_counterexample :
    get_scoreboard scoreboardStore "S1" =
      .success 200 ⟨"S1", [⟨"ghost", "Unknown", "😀", 0, 0, 1⟩]⟩ ∧
    scoreboardStore.globalParticipants = [] ∧
    scoreboardStore.legacyParticipants = [] :=
  ⟨rfl, rfl, rfl⟩

/-- **C8** (amended).  For an existing session the scoreboard holds exactly
one entry per SessionParticipation of the session, except that a
participation row is dropped (only) when the session has a truthy
`tenantId` and the *participation row's* `tenantId` differs from it; a
missing participant record does not drop the entry but yields the fallback
name/avatar.  Every entry carries the name and avatar that the
global-participant lookup (with legacy-table and `"Unknown"`/default-avatar
fallbacks) produces for its participant. -/
theorem get_scoreboard_entries (st : Store) (sid : String) (s : Session)
    (hsid : sid ≠ "") (hs : find_session st sid = some s) :
    ∃ sb : List ScoreboardEntry,
      get_scoreboard st sid = .success 200 ⟨sid, sb⟩ ∧
      List.Perm (sb.map (fun e => { e with rank := 0 }))
        (((st.participations.filter (fun p => p.sessionId == sid)).filter
            (scoreboard_keep s.tenantId)).map (mkEntry st)) ∧
      (∀ e ∈ sb, e.name = (lookup_name_avatar st e.participantId).1 ∧
                 e.avatar = (lookup_name_avatar st e.participantId).2) := by
  have hsid' : (sid == "") = false := by simp [hsid]
  refine ⟨assign_ranks (sort_desc (build_scoreboard st s.tenantId
    (st.participations.filter (fun p => p.sessionId == sid)))), ?_, ?_, ?_⟩
  · simp [get_scoreboard, hsid', hs]
  · rw [assign_ranks, assign_ranks_from_strip]
    have hperm := (sort_desc_perm (build_scoreboard st s.tenantId
      (st.participations.filter (fun p => p.sessionId == sid)))).map
      (fun e => { e with rank := 0 })
    refine hperm.trans ?_
    rw [build_scoreboard_eq, List.map_map]
    have : ((fun e => { e with rank := 0 }) ∘ mkEntry st) = mkEntry st := by
      funext p
      rfl
    rw [this]
  · intro e he
    have h1 : ({ e with rank := 0 } : ScoreboardEntry) ∈
        (assign_ranks (sort_desc (build_scoreboard st s.tenantId
          (st.participations.filter (fun p => p.sessionId == sid))))).map
          (fun e => { e with rank := 0 }) :=
      List.mem_map_of_mem _ he
    rw [assign_ranks, assign_ranks_from_strip] at h1
    have h2 := ((sort_desc_perm _).map (fun e => { e with rank := 0 })).mem_iff.mp h1
    rw [build_scoreboard_eq, List.map_map] at h2
    rw [List.mem_map] at h2
    obtain ⟨p, hp, hpe⟩ := h2
    have hpe' : mkEntry st p = { e with rank := 0 } := hpe
    constructor
    · have hn := congrArg ScoreboardEntry.name hpe'
      have hq := congrArg ScoreboardEntry.participantId hpe'
      simp only [mkEntry] at hn hq
      rw [← hn]
      rw [hq]
    · have hn := congrArg ScoreboardEntry.avatar hpe'
      have hq := congrArg ScoreboardEntry.participantId hpe'
      simp only [mkEntry] at hn hq
      rw [← hn]
      rw [hq]

/-- Closed instance of `get_scoreboard_entries` on `scoreboardStore`: the
request succeeds with 200 and some scoreboard. -/
theorem get_scoreboard_entries_witness :
    (get_scoreboard scoreboardStore "S1").status = 200 := by
  obtain ⟨sb, h1, _, _⟩ := get_scoreboard_entries scoreboardStore "S1"
    ⟨"S1", some "T1", none, none, some 0, none⟩ (by decide) rfl
  rw [h1]
  rfl

theorem answerSum_append (l : List Answer) (a : Answer) (k : Nat) :
    answerSum (l ++ [a]) k =
      answerSum l k + (if a.participationId = k then a.points else 0) := by
  unfold answerSum
  rw [List.filter_append]
  by_cases h : a.participationId = k
  · simp [h]
  · simp [h]

theorem answerSum_eq_zero {l : List Answer} {k : Nat}
    (h : ∀ a ∈ l, a.participationId ≠ k) : answerSum l k = 0 := by
  unfold answerSum
  have hnil : l.filter (fun a => a.participationId == k) = [] := by
    rw [List.filter_eq_nil_iff]
    intro a ha
    simpa using h a ha
  rw [hnil]
  rfl

/-- The score update rewrites only `totalPoints`/`correctAnswers`, so the
key column is untouched. -/
theorem update_participation_scores_map_id (ps : List Participation) (k : Nat) (tp ca : Int) :
    (update_participation_scores ps k tp ca).map Participation.participationId =
      ps.map Participation.participationId := by
  unfold update_participation_scores
  rw [List.map_map]
  have hcomp : (Participation.participationId ∘ fun q =>
      if q.participationId == k then { q with totalPoints := tp, correctAnswers := ca } else q) =
      Participation.participationId := by
    funext q
    by_cases h : q.participationId = k <;> simp [h]
  rw [hcomp]

/-- Creating a fresh zero-score participation row preserves the store
invariant. -/
theorem wf_append_participation (st : Store) (p : Participation) (wf : StoreWF st)
    (hid : p.participationId = st.nextId) (htp : p.totalPoints = 0) :
    StoreWF { st with participations := put_participation st.participations p
                      nextId := st.nextId + 1 } := by
  have hany : st.participations.any (fun q => q.participationId == p.participationId) = false := by
    rw [List.any_eq_false]
    intro q hq
    have hlt := wf.1 q hq
    simp only [beq_iff_eq, hid]
    omega
  have happ : put_participation st.participations p = st.participations ++ [p] := by
    simp [put_participation, hany]
  rw [happ]
  refine ⟨?_, ?_, ?_, ?_, ?_⟩
  · intro q hq
    rcases List.mem_append.mp hq with h | h
    · exact Nat.lt_succ_of_lt (wf.1 q h)
    · rw [List.mem_singleton] at h
      subst h
      rw [hid]
      exact Nat.lt_succ_self _
  · intro a ha
    exact Nat.lt_succ_of_lt (wf.2.1 a ha)
  · intro a ha
    exact Nat.lt_succ_of_lt (wf.2.2.1 a ha)
  · rw [List.map_append]
    refine List.Nodup.append wf.2.2.2.1 (by simp) ?_
    intro x hx hx2
    rw [List.mem_map] at hx
    obtain ⟨q, hq, hqx⟩ := hx
    have hlt := wf.1 q hq
    simp only [List.map_cons, List.map_nil, List.mem_singleton] at hx2
    omega
  · intro q hq
    rcases List.mem_append.mp hq with h | h
    · exact wf.2.2.2.2 q h
    · rw [List.mem_singleton] at h
      subst h
      rw [htp]
      symm
      apply answerSum_eq_zero
      intro a ha
      have hlt := wf.2.2.1 a ha
      rw [hid]
      omega

/-- Appending an answer for an existing participation row and adding its
points onto that row's counter preserves the store invariant. -/
theorem wf_submit_success (st : Store) (p0 : Participation) (a : Answer) (c : Int)
    (wf : StoreWF st) (hp0 : p0 ∈ st.participations)
    (haid : a.answerId = st.nextId) (hapid : a.participationId = p0.participationId) :
    StoreWF
      { st with
          answers := put_answer st.answers a
          participations := update_participation_scores st.participations p0.participationId
            (p0.totalPoints + a.points) (p0.correctAnswers + c)
          nextId := st.nextId + 1 } := by
  have hanyA : st.answers.any (fun q => q.answerId == a.answerId) = false := by
    rw [List.any_eq_false]
    intro q hq
    have hlt := wf.2.1 q hq
    simp only [beq_iff_eq, haid]
    omega
  have happ : put_answer st.answers a = st.answers ++ [a] := by
    simp [put_answer, hanyA]
  have hp0lt := wf.1 p0 hp0
  rw [happ]
  refine ⟨?_, ?_, ?_, ?_, ?_⟩
  · intro q hq
    unfold update_participation_scores at hq
    rw [List.mem_map] at hq
    obtain ⟨q0, hq0, hq0e⟩ := hq
    have : q.participationId = q0.participationId := by
      subst hq0e
      by_cases h : q0.participationId = p0.participationId <;> simp [h]
    rw [this]
    exact Nat.lt_succ_of_lt (wf.1 q0 hq0)
  · intro b hb
    rcases List.mem_append.mp hb with h | h
    · exact Nat.lt_succ_of_lt (wf.2.1 b h)
    · rw [List.mem_singleton] at h
      subst h
      rw [haid]
      exact Nat.lt_succ_self _
  · intro b hb
    rcases List.mem_append.mp hb with h | h
    · exact Nat.lt_succ_of_lt (wf.2.2.1 b h)
    · rw [List.mem_singleton] at h
      subst h
      rw [hapid]
      exact Nat.lt_succ_of_lt hp0lt
  · rw [update_participation_scores_map_id]
    exact wf.2.2.2.1
  · intro q hq
    unfold update_participation_scores at hq
    rw [List.mem_map] at hq
    obtain ⟨q0, hq0, hq0e⟩ := hq
    by_cases h : q0.participationId = p0.participationId
    · have hq0p0 : q0 = p0 :=
        List.inj_on_of_nodup_map wf.2.2.2.1 hq0 hp0 h
      subst hq0p0
      rw [← hq0e]
      simp only [beq_self_eq_true, if_pos]
      have hsum := wf.2.2.2.2 q0 hq0
      rw [answerSum_append]
      rw [if_pos hapid, ← hsum]
    · rw [← hq0e]
      have hne : (q0.participationId == p0.participationId) = false := by
        simp [h]
      rw [hne]
      simp only [Bool.false_eq_true, if_neg, ite_false]
      rw [answerSum_append]
      have hzero : ¬ a.participationId = q0.participationId := by
        rw [hapid]
        exact fun hcon => h hcon.symm
      rw [if_neg hzero]
      have hsum := wf.2.2.2.2 q0 hq0
      omega

/-- A join request preserves the store invariant. -/
theorem join_preserves_wf (st : Store) (pid ptid sid t : String) (wf : StoreWF st) :
    StoreWF (join_session st pid ptid sid t).2 := by
  unfold join_session
  split
  · exact wf
  · split
    · exact wf
    · split
      · exact wf
      · split
        · exact wf
        · exact wf_append_participation st _ wf rfl rfl

/-- A submit-answer request preserves the store invariant. -/
theorem submit_preserves_wf (st : Store) (bd : ReqBody SubmitBody) (now : Int)
    (wf : StoreWF st) : StoreWF (submit_answer_core st bd now).2 := by
  rcases bd with _ | _ | b
  · exact wf
  · exact wf
  · show StoreWF (submit_answer_core st (.parsed b) now).2
    simp only [submit_answer_core]
    split
    · exact wf
    · rcases hb : b.answer with _ | v
      · simp only [hb]
        exact wf
      · rcases v with n | _
        · simp only [hb]
          split
          · exact wf
          · rcases hp : find_participation st (b.participantId.getD "") (b.sessionId.getD "")
              with _ | p0
            · simp only [hp]
              exact wf
            · simp only [hp]
              rcases hss : find_session st (b.sessionId.getD "") with _ | sess
              · simp only [hss]
                exact wf
              · simp only [hss]
                split
                · exact wf
                · rcases hr : find_round st (b.sessionId.getD "") (b.roundNumber.getD 0)
                    with _ | rnd
                  · simp only [hr]
                    exact wf
                  · simp only [hr]
                    obtain ⟨hmem, _, _⟩ := find_participation_mem hp
                    exact wf_submit_success st p0
                      { answerId := st.nextId
                        participantId := b.participantId.getD ""
                        participationId := p0.participationId
                        sessionId := b.sessionId.getD ""
                        tenantId := p0.tenantId
                        roundNumber := b.roundNumber.getD 0
                        answer := n
                        isCorrect := n == rnd.correctAnswer
                        points := compute_points (n == rnd.correctAnswer) sess.roundStartedAt now
                        submittedAt := now }
                      (if (n == rnd.correctAnswer) = true then 1 else 0)
                      wf hmem rfl rfl
        · simp only [hb]
          exact wf

theorem apply_op_preserves_wf (st : Store) (op : Op) (wf : StoreWF st) :
    StoreWF (apply_op st op) := by
  cases op with
  | join pid ptid sid t => exact join_preserves_wf st pid ptid sid t wf
  | submit pid sid rn ans now => exact submit_preserves_wf st _ now wf

theorem run_ops_wf (init : Store) (ops : List Op) (winit : StoreWF init) :
    StoreWF (run_ops init ops) := by
  induction ops generalizing init with
  | nil => exact winit
  | cons op rest ih => exact ih (apply_op init op) (apply_op_preserves_wf init op winit)

/-- **C4**.  In every store reached from a store with no participations and
no answers by any sequence of join-session and submit-answer operations
(failed requests leave the store unchanged, so this covers exactly the
successful ones), every SessionParticipation's `totalPoints` equals the sum
of `points` over the Answer rows carrying its `participationId`. -/
theorem totalPoints_eq_answerSum (init : Store) (hp : init.participations = [])
    (ha : init.answers = []) (ops : List Op) :
    ∀ p ∈ (run_ops init ops).participations,
      p.totalPoints = answerSum (run_ops init ops).answers p.participationId := by
  have winit : StoreWF init := by
    refine ⟨?_, ?_, ?_, ?_, ?_⟩ <;> simp [hp, ha]
  exact (run_ops_wf init ops winit).2.2.2.2

/-- Closed instance of `totalPoints_eq_answerSum`: after join, a correct
fast answer and a wrong answer, the single participation row holds
`totalPoints = 10`, the sum of its two answers' points (10 and 0). -/
theorem totalPoints_eq_answerSum_witness :
    c4P.totalPoints = answerSum (run_ops c4Init c4Ops).answers c4P.participationId :=
  totalPoints_eq_answerSum c4Init rfl rfl c4Ops c4P (by decide)

end MusikQuiz
